import Mathlib

namespace TTS

/-! A shallow embedding of the ChatTTS synthesis service
(`tts_service.py`): the PCM quantization performed by `_numpy_to_wav`,
the WAV container layout written by the `wave` module, the service
lifecycle (`load_model`, `synthesize`, `get_info`) and the CLI entry
point (`main`).  Waveform samples are modelled as rationals (the float
operations involved — clamping, scaling by 32767, integer conversion —
are exact on the inputs considered); the external ChatTTS backend and
the torch environment are modelled as oracles (`Backend`, `Env`).
Side effects that matter to the claims (model load attempts, backend
inference invocations) are returned as explicit counters. -/

/-- `np.clip(audio, -1.0, 1.0)`, pointwise. -/
def clip (x : ℚ) : ℚ := min 1 (max (-1) x)

/-- Truncation toward zero, the semantics of the C-style cast performed
by `np.int16` on a float value that is in range: the integer quotient
of numerator by denominator, rounded toward zero. -/
def ratTrunc (q : ℚ) : ℤ := q.num.tdiv q.den

/-- One sample of `np.int16(np.clip(audio, -1.0, 1.0) * 32767)`:
clamp, scale by 32767, truncate toward zero. -/
def quantize (x : ℚ) : ℤ := ratTrunc (clip x * 32767)

/-- Modelled from the spec: the spec describes the quantization step as
`round(sample * 32767)` after the clamp, i.e. rounding to the nearest
integer.  Kept for comparison against `quantize`, which embeds the
source. -/
def quantizeSpec (x : ℚ) : ℤ := round (clip x * 32767)

/-- Two little-endian bytes of a 16-bit value. -/
def le16 (n : ℕ) : List ℕ := [n % 256, n / 256 % 256]

/-- Four little-endian bytes of a 32-bit value. -/
def le32 (n : ℕ) : List ℕ :=
  [n % 256, n / 256 % 256, n / 65536 % 256, n / 16777216 % 256]

/-- A 16-bit signed sample as two little-endian two's-complement bytes
(what `audio_int16.tobytes()` emits per sample). -/
def int16ToBytes (s : ℤ) : List ℕ := le16 ((s % 65536).toNat)

/-- The PCM payload: every sample quantized and serialized. -/
def pcmData (audio : List ℚ) : List ℕ :=
  (audio.map fun x => int16ToBytes (quantize x)).flatten

/-- The 44-byte canonical WAV header written by Python's `wave` module
for mono 16-bit PCM: RIFF chunk, fmt chunk (PCM, 1 channel, the frame
rate, byte rate, block align 2, 16 bits), data chunk header. -/
def wavHeader (sampleRate dataLen : ℕ) : List ℕ :=
  [82, 73, 70, 70] ++ le32 (36 + dataLen) ++ [87, 65, 86, 69] ++
  [102, 109, 116, 32] ++ le32 16 ++ le16 1 ++ le16 1 ++
  le32 sampleRate ++ le32 (sampleRate * 2) ++ le16 2 ++ le16 16 ++
  [100, 97, 116, 97] ++ le32 dataLen

/-- `_numpy_to_wav`: the full WAV byte string (header plus payload). -/
def numpy_to_wav (audio : List ℚ) (sampleRate : ℕ) : List ℕ :=
  wavHeader sampleRate (pcmData audio).length ++ pcmData audio

/-- Decode four little-endian bytes. -/
def le32dec (l : List ℕ) : ℕ :=
  match l with
  | [a, b, c, d] => a + 256 * b + 65536 * c + 16777216 * d
  | _ => 0

/-- A WAV reader for the canonical layout above: checks the RIFF/WAVE
magic, the fmt chunk position and the data chunk magic, then returns
the declared frame rate and the number of 16-bit frames. -/
def parseWav (bytes : List ℕ) : Option (ℕ × ℕ) :=
  if bytes.take 4 = [82, 73, 70, 70] ∧
     (bytes.drop 8).take 8 = [87, 65, 86, 69, 102, 109, 116, 32] ∧
     (bytes.drop 36).take 4 = [100, 97, 116, 97] then
    let rate := le32dec ((bytes.drop 24).take 4)
    let dataLen := le32dec ((bytes.drop 40).take 4)
    if (bytes.drop 44).length = dataLen then some (rate, dataLen / 2)
    else none
  else none

/-- The torch environment seen by the service: whether `import torch`
succeeds and whether `torch.cuda.is_available()` returns true. -/
structure Env where
  torchAvailable : Bool
  cudaAvailable : Bool
deriving Repr, DecidableEq

/-- The external ChatTTS backend: whether `ChatTTS.load` succeeds, and
what `model.infer(text, lang=lang, use_decoder=True)` yields — either a
raised exception message or a list of waveforms (the code indexes the
result with `wav[0]`). -/
structure Backend where
  loadOk : Bool
  infer : String → String → Except String (List (List ℚ))

/-- The mutable state of one `ChatTTSService` instance. -/
structure ServiceState where
  device : String
  modelLoaded : Bool
  sampleRate : ℕ
deriving Repr, DecidableEq

/-- `_get_device`: "cuda" when torch imports and reports CUDA, else
"cpu". -/
def getDevice (e : Env) : String :=
  if e.torchAvailable && e.cudaAvailable then "cuda" else "cpu"

/-- `__init__(device)`: `device or self._get_device()` (a falsy device
argument — absent or the empty string — falls back to detection);
`model_loaded` starts false, sample rate is the ChatTTS standard
24000. -/
def serviceInit (device : Option String) (e : Env) : ServiceState :=
  { device :=
      match device with
      | some d => if d = "" then getDevice e else d
      | none => getDevice e,
    modelLoaded := false,
    sampleRate := 24000 }

/-- `load_model`: returns `(result, new state, load attempts made)`.
Already loaded: immediate `true`, no attempt.  Otherwise one attempt at
`ChatTTS.load`; on success the loaded flag is set, on exception the
error is printed and `False` is returned with the state unchanged. -/
def load_model (b : Backend) (s : ServiceState) :
    Bool × ServiceState × ℕ :=
  if s.modelLoaded then (true, s, 0)
  else if b.loadOk then (true, { s with modelLoaded := true }, 1)
  else (false, s, 1)

/-- `_cuda_available`. -/
def cuda_available (e : Env) : Bool := e.torchAvailable && e.cudaAvailable

/-- The dictionary returned by `get_info`. -/
structure Info where
  device : String
  cuda_available : Bool
  sample_rate : ℕ
  model_loaded : Bool
deriving Repr, DecidableEq

/-- `get_info`: a snapshot of the current state; takes no backend and
returns no new state, so it can neither load the model nor mutate. -/
def get_info (e : Env) (s : ServiceState) : Info :=
  { device := s.device,
    cuda_available := cuda_available e,
    sample_rate := s.sampleRate,
    model_loaded := s.modelLoaded }

/-- The body of `synthesize` after the model-loading guard: one call to
`model.infer`; an exception from it is wrapped with the prefix
"TTS synthesis failed: "; `wav[0]` on an empty result list raises
`IndexError("list index out of range")`, caught by the same handler;
otherwise the first waveform is converted by `_numpy_to_wav` and
returned with `self.sample_rate`.  The two counters are (load
attempts, inference calls). -/
def synthBody (b : Backend) (s : ServiceState) (text lang : String)
    (loads : ℕ) :
    Except String (ℕ × List ℕ) × ServiceState × ℕ × ℕ :=
  match b.infer text lang with
  | .error e => (.error ("TTS synthesis failed: " ++ e), s, loads, 1)
  | .ok [] =>
      (.error "TTS synthesis failed: list index out of range", s, loads, 1)
  | .ok (w :: _) =>
      (.ok (s.sampleRate, numpy_to_wav w s.sampleRate), s, loads, 1)

/-- `synthesize(text, lang)`: lazily loads the model (raising
"Model loading failed" when that fails), then runs the synthesis
body.  Result, new state, and `(load attempts, inference calls)`. -/
def synthesize (b : Backend) (s : ServiceState) (text lang : String) :
    Except String (ℕ × List ℕ) × ServiceState × ℕ × ℕ :=
  if s.modelLoaded then synthBody b s text lang 0
  else
    match load_model b s with
    | (true, s', n) => synthBody b s' text lang n
    | (false, s', n) => (.error "Model loading failed", s', n, 0)

/-- The parsed CLI arguments of `main`. -/
structure Args where
  text : Option String
  lang : String
  device : Option String
  info : Bool

/-- The observable outcome of one `main` run: info mode (JSON info,
exit 0); success (audio bytes on stdout, then sample rate / size /
duration metadata on stderr, exit 0); help plus exit 1 for missing or
empty text; error JSON plus exit 1. -/
inductive MainOutcome where
  | infoOut (i : Info)
  | success (audioBytes : List ℕ) (sampleRate : ℕ) (size : ℕ)
      (duration : ℚ)
  | helpExit
  | errorOut (msg : String)
deriving Repr, DecidableEq

/-- `main`: builds the service, handles `--info`, rejects falsy
`--text` (absent or empty) with help and exit status 1 before any
synthesis, otherwise synthesizes and reports metadata with
`duration = (len(audio_bytes) / 2) / sample_rate`.  Also returns the
`(load attempts, inference calls)` counters. -/
def main_run (e : Env) (b : Backend) (a : Args) :
    MainOutcome × ℕ × ℕ :=
  let s := serviceInit a.device e
  if a.info then (.infoOut (get_info e s), 0, 0)
  else
    match a.text with
    | none => (.helpExit, 0, 0)
    | some t =>
        if t = "" then (.helpExit, 0, 0)
        else
          match synthesize b s t a.lang with
          | (.ok (rate, bytes), _, eff) =>
              (.success bytes rate bytes.length
                (((bytes.length : ℚ) / 2) / rate), eff)
          | (.error m, _, eff) => (.errorOut m, eff)

/-! Concrete environments, backends and states used by witnesses and
counterexamples. -/

/-- A torch-less environment (no torch import, no CUDA). -/
def env0 : Env := ⟨false, false⟩

/-- A fresh service built with no explicit device in `env0`. -/
def s0 : ServiceState := serviceInit none env0

/-- A backend whose load fails. -/
def bFail : Backend := ⟨false, fun _ _ => .error "boom"⟩

/-- A healthy backend returning a one-sample waveform. -/
def bHappy : Backend := ⟨true, fun _ _ => .ok [[1/2]]⟩

/-- A backend returning one zero-length waveform (`wav = [array([])]`). -/
def bZeroLen : Backend := ⟨true, fun _ _ => .ok [[]]⟩

/-- A backend returning an empty result list (`wav = []`). -/
def bEmptyList : Backend := ⟨true, fun _ _ => .ok []⟩

/-- A backend returning one waveform with a single zero sample. -/
def bOneSample : Backend := ⟨true, fun _ _ => .ok [[0]]⟩

/-- The state reached from `s0` after a successful load. -/
def sLoaded : ServiceState := (load_model bHappy s0).2.1

/-- CLI arguments for a plain synthesis run. -/
def argsHi : Args := ⟨some "hi", "en", none, false⟩

/-! Basic facts about the quantization pipeline. -/

lemma clip_le_one (x : ℚ) : clip x ≤ 1 := min_le_left _ _

lemma neg_one_le_clip (x : ℚ) : -1 ≤ clip x :=
  le_min (by norm_num) (le_max_left _ _)

lemma clip_eq_self {x : ℚ} (h1 : -1 ≤ x) (h2 : x ≤ 1) : clip x = x := by
  unfold clip
  rw [max_eq_right h1, min_eq_right h2]

lemma clip_clip (x : ℚ) : clip (clip x) = clip x :=
  clip_eq_self (neg_one_le_clip x) (clip_le_one x)

lemma ratTrunc_eq_floor (q : ℚ) (h : 0 ≤ q) : ratTrunc q = ⌊q⌋ := by
  rw [ratTrunc, Rat.floor_def]
  exact Int.tdiv_eq_ediv (Rat.num_nonneg.2 h)
    (by exact_mod_cast Nat.zero_le q.den)

lemma ratTrunc_eq_ceil (q : ℚ) (h : q < 0) : ratTrunc q = ⌈q⌉ := by
  have hnum : q.num < 0 := Rat.num_neg.2 h
  have h1 : ratTrunc q = -((-q.num).tdiv q.den) := by
    rw [ratTrunc, Int.neg_tdiv, neg_neg]
  have h2 : (-q.num).tdiv q.den = -q.num / (q.den : ℤ) :=
    Int.tdiv_eq_ediv (by omega) (by exact_mod_cast Nat.zero_le q.den)
  have h3 : ⌊-q⌋ = -q.num / (q.den : ℤ) := by
    rw [Rat.floor_def, Rat.neg_num, Rat.neg_den]
  rw [h1, h2, ← h3, Int.floor_neg, neg_neg]

lemma ratTrunc_le {q : ℚ} {n : ℤ} (h : q ≤ (n : ℚ)) : ratTrunc q ≤ n := by
  rcases le_or_lt 0 q with hq | hq
  · rw [ratTrunc_eq_floor q hq]
    exact (Int.floor_mono h).trans_eq (Int.floor_intCast n)
  · rw [ratTrunc_eq_ceil q hq]
    exact Int.ceil_le.2 h

lemma le_ratTrunc {q : ℚ} {n : ℤ} (h : (n : ℚ) ≤ q) : n ≤ ratTrunc q := by
  rcases le_or_lt 0 q with hq | hq
  · rw [ratTrunc_eq_floor q hq]
    exact Int.le_floor.2 h
  · rw [ratTrunc_eq_ceil q hq]
    exact_mod_cast h.trans (Int.le_ceil q)

lemma quantize_le (x : ℚ) : quantize x ≤ 32767 := by
  rw [quantize]
  apply ratTrunc_le
  push_cast
  nlinarith [clip_le_one x]

lemma neg_le_quantize (x : ℚ) : -32767 ≤ quantize x := by
  rw [quantize]
  apply le_ratTrunc
  push_cast
  nlinarith [neg_one_le_clip x]

lemma pcmData_length (audio : List ℚ) :
    (pcmData audio).length = 2 * audio.length := by
  induction audio with
  | nil => rfl
  | cons x t ih =>
      simp only [pcmData, List.map_cons, List.flatten_cons,
        List.length_append, List.length_cons, int16ToBytes, le16,
        List.length_nil] at ih ⊢
      omega

lemma numpy_to_wav_length (audio : List ℚ) (r : ℕ) :
    (numpy_to_wav audio r).length = 44 + 2 * audio.length := by
  have h : (wavHeader r (pcmData audio).length).length = 44 := rfl
  rw [numpy_to_wav, List.length_append, h, pcmData_length]

/-- Claim C10: every quantized 16-bit PCM sample lies in the tighter
range [-32767, 32767]; the value -32768 is never produced, because the
clip to [-1, 1] happens before the multiplication by 3276716 and the
integer conversion cannot exceed that product in magnitude. -/
theorem quantize_never_min_int16 (x : ℚ) :
    -32767 ≤ quantize x ∧ quantize x ≤ 32767 ∧ quantize x ≠ -32768 := by
  have h1 := neg_le_quantize x
  have h2 := quantize_le x
  exact ⟨h1, h2, by omega⟩

/-- Claim C1: every 16-bit sample produced by the PCM conversion lies
in [-32768, 32767], for every rational waveform, including waveforms
with amplitudes outside [-1, 1]; out-of-range amplitudes are silently
clamped to [-1, 1] before scaling (quantization after clamping equals
quantization of the clamped value), and the conversion is total, so no
error is raised for them. -/
theorem pcm_sample_range_and_clamp (audio : List ℚ) :
    ∀ x ∈ audio,
      (-32768 ≤ quantize x ∧ quantize x ≤ 32767) ∧
        quantize x = quantize (clip x) := by
  intro x _
  have h1 := neg_le_quantize x
  have h2 := quantize_le x
  refine ⟨⟨by omega, h2⟩, ?_⟩
  rw [quantize, quantize, clip_clip]

/-- Witness for C1 at the out-of-range amplitude 3/2. -/
theorem pcm_sample_range_and_clamp_witness :
    (-32768 ≤ quantize (3 / 2) ∧ quantize (3 / 2) ≤ 32767) ∧
      quantize (3 / 2) = quantize (clip (3 / 2)) :=
  pcm_sample_range_and_clamp [3 / 2] (3 / 2) (by simp)

/-- Claim C2 counterexample: for the clamped sample 2/3 the code emits
the truncated value 21844 (`np.int16` performs a C-style cast toward
zero), while rounding 2/3 * 32767 = 21844.666... to the nearest integer
gives 21845.  The claim that the encoded PCM value equals
`round(sample * 32767)` is therefore false at sample 2/3. -/
theorem quantize_not_round_cex :
    (-1 : ℚ) ≤ 2 / 3 ∧ (2 / 3 : ℚ) ≤ 1 ∧
      quantize (2 / 3) = 21844 ∧
      round ((2 / 3 : ℚ) * 32767) = 21845 ∧
      quantizeSpec (2 / 3) = 21845 := by
  have hc : clip (2 / 3 : ℚ) = 2 / 3 :=
    clip_eq_self (by norm_num) (by norm_num)
  refine ⟨by norm_num, by norm_num, ?_, ?_, ?_⟩
  · rw [quantize, hc, ratTrunc_eq_floor _ (by positivity)]
    norm_num
  · norm_num [round_eq]
  · rw [quantizeSpec, hc]
    norm_num [round_eq]

/-- Claim C2 amended: for every clamped sample x in [-1, 1] the encoded
PCM value is the truncation toward zero of x * 32767 (the floor for
nonnegative samples, the ceiling for negative ones), not rounding to
the nearest integer. -/
theorem quantize_eq_trunc (x : ℚ) (h1 : -1 ≤ x) (h2 : x ≤ 1) :
    quantize x = ratTrunc (x * 32767) ∧
      (0 ≤ x → quantize x = ⌊x * 32767⌋) ∧
      (x < 0 → quantize x = ⌈x * 32767⌉) := by
  have hc : clip x = x := clip_eq_self h1 h2
  refine ⟨by rw [quantize, hc], ?_, ?_⟩
  · intro hx
    rw [quantize, hc]
    exact ratTrunc_eq_floor _ (by positivity)
  · intro hx
    rw [quantize, hc]
    exact ratTrunc_eq_ceil _ (by nlinarith)

/-- Witness for the amended C2 at the samples 2/3 and -2/3. -/
theorem quantize_eq_trunc_witness :
    quantize (2 / 3) = ratTrunc ((2 / 3 : ℚ) * 32767) ∧
      quantize (2 / 3) = ⌊(2 / 3 : ℚ) * 32767⌋ ∧
      quantize (-2 / 3) = ⌈(-2 / 3 : ℚ) * 32767⌉ :=
  ⟨(quantize_eq_trunc (2 / 3) (by norm_num) (by norm_num)).1,
   (quantize_eq_trunc (2 / 3) (by norm_num) (by norm_num)).2.1 (by norm_num),
   (quantize_eq_trunc (-2 / 3) (by norm_num) (by norm_num)).2.2 (by norm_num)⟩

/-- Claim C7: `load_model` is idempotent after success.  When the model
is already loaded it returns true immediately with the state unchanged
and zero load attempts; after any successful call a second call returns
true with zero further attempts; on failure it returns false (it is a
total function, so it never throws) and leaves the state unchanged and
unloaded, so the call is retryable. -/
theorem load_model_idempotent (b : Backend) (s : ServiceState) :
    (s.modelLoaded = true → load_model b s = (true, s, 0)) ∧
    ((load_model b s).1 = true →
      load_model b (load_model b s).2.1 = (true, (load_model b s).2.1, 0)) ∧
    ((load_model b s).1 = false →
      (load_model b s).2.1 = s ∧ s.modelLoaded = false) := by
  cases hm : s.modelLoaded <;> cases hl : b.loadOk <;>
    simp [load_model, hm, hl]

/-- Witness for C7: a loaded state is returned unchanged; a second call
after a successful load does no work; a failed load leaves the fresh
state unchanged. -/
theorem load_model_idempotent_witness :
    load_model bHappy sLoaded = (true, sLoaded, 0) ∧
    load_model bHappy (load_model bHappy s0).2.1 =
      (true, (load_model bHappy s0).2.1, 0) ∧
    ((load_model bFail s0).2.1 = s0 ∧ s0.modelLoaded = false) :=
  ⟨(load_model_idempotent bHappy sLoaded).1 rfl,
   (load_model_idempotent bHappy s0).2.1 rfl,
   (load_model_idempotent bFail s0).2.2 rfl⟩

/-- Claim C9: `get_info` is a pure read.  By construction it takes no
backend (so it cannot trigger a load) and returns no new state (so it
cannot mutate); its result is exactly the snapshot of the current
state, and on a freshly constructed service it reports
`model_loaded = false` while the service state remains unloaded. -/
theorem get_info_pure (e : Env) (s : ServiceState) (d : Option String) :
    get_info e s =
      ⟨s.device, cuda_available e, s.sampleRate, s.modelLoaded⟩ ∧
    (get_info e (serviceInit d e)).model_loaded = false ∧
    (serviceInit d e).modelLoaded = false :=
  ⟨rfl, rfl, rfl⟩

/-- Claim C3 counterexample: with a healthy backend, `synthesize` with
empty text does not fail: it returns audio, and the backend inference
is invoked (exactly once).  There is no empty-text validation in
`synthesize`. -/
theorem synthesize_empty_text_cex :
    (synthesize bHappy s0 "" "en").1 =
      .ok (24000, numpy_to_wav [1 / 2] 24000) ∧
    (synthesize bHappy s0 "" "en").2.2.2 = 1 :=
  ⟨rfl, rfl⟩

/-- Claim C3 amended: the empty-text short circuit lives in the CLI
entry point, not in `synthesize`: `main` with absent or empty `--text`
prints help and exits with status 1 before any model load or backend
call (both effect counters are zero), for every language, device and
backend.  `synthesize` itself performs no text validation. -/
theorem main_rejects_empty_text (e : Env) (b : Backend) (lang : String)
    (dev : Option String) :
    main_run e b ⟨some "", lang, dev, false⟩ = (.helpExit, 0, 0) ∧
    main_run e b ⟨none, lang, dev, false⟩ = (.helpExit, 0, 0) :=
  ⟨rfl, rfl⟩

/-- Claim C4 counterexample: when the backend returns one zero-length
waveform (`wav = [array([])]`), `synthesize` succeeds and returns a
header-only container: 44 bytes of WAV header, zero PCM samples.  No
empty-result check exists, so a successful return can carry zero audio
samples. -/
theorem synthesize_zero_samples_cex :
    (synthesize bZeroLen s0 "hi" "en").1 =
      .ok (24000, numpy_to_wav [] 24000) ∧
    (numpy_to_wav [] 24000).length = 44 ∧
    pcmData [] = [] :=
  ⟨rfl, rfl, rfl⟩

/-- Claim C4 amended: `synthesize` has no explicit empty-result check.
A backend result with no utterances at all fails, but only through the
wrapped `IndexError` of `wav[0]`; a backend result containing an empty
waveform is returned as a success whose container holds zero samples.
The returned byte buffer itself is never empty (the 44-byte header is
always present). -/
theorem synthesize_empty_result (b : Backend) (s : ServiceState)
    (text lang : String) (hs : s.modelLoaded = true) :
    (b.infer text lang = .ok [] →
      (synthesize b s text lang).1 =
        .error "TTS synthesis failed: list index out of range") ∧
    (∀ w ws, b.infer text lang = .ok (w :: ws) →
      (synthesize b s text lang).1 =
        .ok (s.sampleRate, numpy_to_wav w s.sampleRate) ∧
      (numpy_to_wav w s.sampleRate).length = 44 + 2 * w.length ∧
      numpy_to_wav w s.sampleRate ≠ []) := by
  constructor
  · intro hi
    simp [synthesize, synthBody, hs, hi]
  · intro w ws hi
    refine ⟨by simp [synthesize, synthBody, hs, hi], numpy_to_wav_length w _, ?_⟩
    intro hcon
    have hl := numpy_to_wav_length w s.sampleRate
    rw [hcon] at hl
    simp only [List.length_nil] at hl
    omega

/-- Witness for the amended C4: with the model loaded, an empty result
list yields the wrapped indexing error; a zero-length waveform yields a
successful 44-byte, zero-sample container. -/
theorem synthesize_empty_result_witness :
    (synthesize bEmptyList sLoaded "hi" "en").1 =
      .error "TTS synthesis failed: list index out of range" ∧
    ((synthesize bZeroLen sLoaded "hi" "en").1 =
      .ok (sLoaded.sampleRate, numpy_to_wav [] sLoaded.sampleRate) ∧
     (numpy_to_wav [] sLoaded.sampleRate).length =
       44 + 2 * List.length ([] : List ℚ) ∧
     numpy_to_wav [] sLoaded.sampleRate ≠ []) :=
  ⟨(synthesize_empty_result bEmptyList sLoaded "hi" "en" rfl).1 rfl,
   (synthesize_empty_result bZeroLen sLoaded "hi" "en" rfl).2 [] [] rfl⟩

/-- Claim C6 counterexample: with the model already loaded and a
backend whose call returns normally (an empty utterance list, not an
exception), `synthesize` still raises an error — a third trigger beyond
the two cases the claim allows (load failure, backend throw). -/
theorem synthesize_error_cases_cex :
    sLoaded.modelLoaded = true ∧
    bEmptyList.infer "hi" "en" = .ok [] ∧
    (synthesize bEmptyList sLoaded "hi" "en").1 =
      .error "TTS synthesis failed: list index out of range" :=
  ⟨rfl, rfl, rfl⟩

/-- Claim C6 amended: `synthesize` produces an error exactly in these
cases — the model is unloaded and the load fails ("Model loading
failed"), or loading succeeds (or was already done) and the synthesis
block fails, either because the backend call throws (the cause text is
wrapped with the prefix "TTS synthesis failed: ") or because the
backend returns an empty utterance list (the wrapped `IndexError`).
The result is a single error value, never accompanied by audio. -/
theorem synthesize_error_characterization (b : Backend)
    (s : ServiceState) (text lang : String) (m : String) :
    (synthesize b s text lang).1 = .error m ↔
      (s.modelLoaded = false ∧ b.loadOk = false ∧
        m = "Model loading failed") ∨
      ((s.modelLoaded = true ∨ b.loadOk = true) ∧
        ((∃ e, b.infer text lang = .error e ∧
            m = "TTS synthesis failed: " ++ e) ∨
         (b.infer text lang = .ok [] ∧
            m = "TTS synthesis failed: list index out of range"))) := by
  cases hm : s.modelLoaded <;> cases hl : b.loadOk <;>
    rcases hi : b.infer text lang with e | (_ | ⟨w, ws⟩) <;>
      simp [synthesize, synthBody, load_model, hm, hl, hi, eq_comm]

/-- Witness for the amended C6: the load-failure case produces exactly
the "Model loading failed" error. -/
theorem synthesize_error_characterization_witness :
    (synthesize bFail s0 "hi" "en").1 = .error "Model loading failed" :=
  (synthesize_error_characterization bFail s0 "hi" "en"
    "Model loading failed").mpr (Or.inl ⟨rfl, rfl, rfl⟩)

/-- Claim C5 counterexample: for a one-sample waveform, `main` reports
`duration = (len(audio_bytes) / 2) / sample_rate` computed on the whole
container (46 bytes: 44 header + 2 payload), so
`duration * sampleRate * 2 = 46`, while the PCM payload is 2 bytes: the
reported duration does not satisfy the claimed exact relation. -/
theorem duration_exact_cex :
    (main_run env0 bOneSample argsHi).1 =
      .success (numpy_to_wav [0] 24000) 24000
        (numpy_to_wav [0] 24000).length
        (((numpy_to_wav [0] 24000).length : ℚ) / 2 / ((24000 : ℕ) : ℚ)) ∧
    (numpy_to_wav [0] 24000).length = 46 ∧
    (pcmData [0]).length = 2 ∧
    ((46 : ℚ) / 2 / ((24000 : ℕ) : ℚ)) * 24000 * 2 = 46 ∧
    (46 : ℚ) ≠ 2 := by
  refine ⟨rfl, rfl, rfl, ?_, by norm_num⟩
  push_cast
  norm_num

/-- Claim C5 amended: the duration written to the diagnostic channel is
computed from the length of the whole container, header included:
`duration * sampleRate * 2` equals the container length
`2 * N + 44`, not the PCM payload length `2 * N`; it overestimates the
exact duration by 22 samples' worth (the 44 header bytes). -/
theorem duration_counts_header (audio : List ℚ) :
    ((((numpy_to_wav audio 24000).length : ℚ) / 2) / ((24000 : ℕ) : ℚ))
        * 24000 * 2 = 2 * audio.length + 44 ∧
    (numpy_to_wav audio 24000).length = 44 + 2 * audio.length := by
  refine ⟨?_, numpy_to_wav_length audio 24000⟩
  rw [numpy_to_wav_length]
  push_cast
  ring

lemma header_take4 (r dl : ℕ) (d : List ℕ) :
    (wavHeader r dl ++ d).take 4 = [82, 73, 70, 70] := rfl

lemma header_drop8 (r dl : ℕ) (d : List ℕ) :
    ((wavHeader r dl ++ d).drop 8).take 8 =
      [87, 65, 86, 69, 102, 109, 116, 32] := rfl

lemma header_drop36 (r dl : ℕ) (d : List ℕ) :
    ((wavHeader r dl ++ d).drop 36).take 4 = [100, 97, 116, 97] := rfl

lemma header_drop24 (r dl : ℕ) (d : List ℕ) :
    ((wavHeader r dl ++ d).drop 24).take 4 =
      [r % 256, r / 256 % 256, r / 65536 % 256, r / 16777216 % 256] := rfl

lemma header_drop40 (r dl : ℕ) (d : List ℕ) :
    ((wavHeader r dl ++ d).drop 40).take 4 =
      [dl % 256, dl / 256 % 256, dl / 65536 % 256, dl / 16777216 % 256] :=
  rfl

lemma header_drop44 (r dl : ℕ) (d : List ℕ) :
    (wavHeader r dl ++ d).drop 44 = d := rfl

/-- Claim C8: round-trip for the PCM path.  Parsing the produced WAV
container back yields exactly the encoded sample rate and the original
sample count, for every waveform whose sizes fit the 32-bit header
fields; and the encoding is deterministic — equal input waveforms yield
byte-for-byte identical output (it is a pure function of the input). -/
theorem wav_roundtrip (audio : List ℚ) (r : ℕ)
    (hr : r < 4294967296) (hlen : 36 + 2 * audio.length < 4294967296) :
    parseWav (numpy_to_wav audio r) = some (r, audio.length) ∧
    ∀ audio2, audio2 = audio →
      numpy_to_wav audio2 r = numpy_to_wav audio r := by
  constructor
  · have hp := pcmData_length audio
    have hw : numpy_to_wav audio r =
        wavHeader r (pcmData audio).length ++ pcmData audio := rfl
    have h1 := header_take4 r (pcmData audio).length (pcmData audio)
    have h2 := header_drop8 r (pcmData audio).length (pcmData audio)
    have h3 := header_drop36 r (pcmData audio).length (pcmData audio)
    have h4 := header_drop24 r (pcmData audio).length (pcmData audio)
    have h5 := header_drop40 r (pcmData audio).length (pcmData audio)
    have h6 := header_drop44 r (pcmData audio).length (pcmData audio)
    rw [hw] at *
    rw [parseWav.eq_def, if_pos ⟨h1, h2, h3⟩, h4, h5, h6]
    simp only [le32dec]
    rw [if_pos (by omega)]
    simp only [Option.some.injEq, Prod.mk.injEq]
    omega
  · intro audio2 h
    rw [h]

/-- Witness for C8 at a three-sample waveform (with one out-of-range
sample) and the standard rate. -/
theorem wav_roundtrip_witness :
    (24000 < 4294967296 ∧
      36 + 2 * List.length ([1 / 2, -1 / 3, 2] : List ℚ) < 4294967296) ∧
    parseWav (numpy_to_wav [1 / 2, -1 / 3, 2] 24000) = some (24000, 3) ∧
    numpy_to_wav [1 / 2, -1 / 3, 2] 24000 =
      numpy_to_wav [1 / 2, -1 / 3, 2] 24000 := by
  refine ⟨⟨by norm_num, by norm_num⟩, ?_, ?_⟩
  · have h := (wav_roundtrip [1 / 2, -1 / 3, 2] 24000 (by norm_num)
      (by norm_num)).1
    simpa using h
  · exact (wav_roundtrip [1 / 2, -1 / 3, 2] 24000 (by norm_num)
      (by norm_num)).2 _ rfl

end TTS
